import Mathlib

/-!
Shallow embedding of `src/ext/management.py` (class `ChannelManagement`) of
the AlueBot repository: the channel game/title tracker, its chat commands,
its channel-update listener and the title-history store.

Modelling conventions:
- timestamps are integers counting microseconds (Python `datetime` UTC
  instants subtract into a `timedelta` whose microsecond count is what the
  code's arithmetic sees);
- the title-history table `ttv_stream_titles` is a list of
  `(title, edit_time)` rows with `title` as its unique key;
- each handler is a pure function from its inputs (tracker state, history
  table, current time, event payload, collaborator answers) to the new
  state, the new table, and the list of externally visible actions it
  performed, in program order.
-/

/-- The history table `ttv_stream_titles`: rows `(title, edit_time)`. -/
abbrev Db := List (String × Int)

/-- Python `timedelta.seconds` of a delta of `d` microseconds: the
normalization `divmod(d, 86400*10^6)` keeps the sub-day remainder, whose
whole-second count (in `0..86399`) is the `.seconds` attribute.  It is NOT
the total elapsed seconds (`.total_seconds()`). -/
def tdSeconds (d : Int) : Int :=
  (d % 86400000000) / 1000000

/-- In-memory tracker state of `ChannelManagement` (`__init__`): last seen
game/title and the instants of the last bot-initiated changes. -/
structure TrackedState where
  game_tracked : String
  title_tracked : String
  game_updated_dt : Int
  title_updated_dt : Int
  deriving Repr, DecidableEq

/-- Payload of a `twitchio.ChannelUpdate` event: the new values (the
platform sends no before/after, only the current values). -/
structure ChannelUpdate where
  category_name : String
  title : String
  deriving Repr, DecidableEq

/-- A game as returned by `bot.fetch_games`. -/
structure Game where
  id : String
  name : String
  deriving Repr, DecidableEq

/-- Externally visible actions a handler performs, in program order.
`stampGame`/`stampTitle` record the assignments to the tracker's
`game_updated_dt`/`title_updated_dt`, so that their position relative to
the provider calls is part of the trace. -/
inductive Act where
  | fetchChannelInfo
  | fetchGames (name : String)
  | stampGame (t : Int)
  | stampTitle (t : Int)
  | modifyChannel (game_id : Option String) (title : Option String)
  | send (msg : String)
  | sendMessage (msg : String)
  deriving Repr, DecidableEq

/-- Modelled from the spec: emote constant `const.STV.DankDolmes` lives in
`utils/const.py`, which is not under src/; its text is display-only. -/
def STV.DankDolmes : String := "DankDolmes"

/-- Modelled from the spec: emote constant `const.STV.uuh` (not under src/). -/
def STV.uuh : String := "uuh"

/-- Modelled from the spec: emote constant `const.STV.How2Read` (not under src/). -/
def STV.How2Read : String := "How2Read"

/-- Modelled from the spec: emote constant `const.STV.DankMods` (not under src/). -/
def STV.DankMods : String := "DankMods"

/-- Modelled from the spec: emote constant `const.STV.donkHappy` (not under src/). -/
def STV.donkHappy : String := "donkHappy"

/-- Modelled from the spec: emote constant `const.STV.donkDetective` (not under src/). -/
def STV.donkDetective : String := "donkDetective"

/-- Modelled from the spec: emote constant `const.STV.DankThink` (not under src/). -/
def STV.DankThink : String := "DankThink"

/-- Modelled from the spec: emote constant `const.FFZ.peepoPolice` (not under src/). -/
def FFZ.peepoPolice : String := "peepoPolice"

/-- Python `str.lower()` as used by `game_name.lower()`: lowercase every
character (ASCII suffices for the keyword "clear"). -/
def str_lower (s : String) : String := ⟨s.data.map Char.toLower⟩

/-- The synonym table of the `game` command:
`{"dota": "Dota 2", "er": "Elden Ring"}.get(game_name, game_name)` —
an exact, case-sensitive lookup falling back to the input itself. -/
def game_keywords (game_name : String) : String :=
  if game_name = "dota" then "Dota 2"
  else if game_name = "er" then "Elden Ring"
  else game_name

/-- The `!game` command handler (`ChannelManagement.game`).
`game_name = none` (or the empty string) is Python's falsy `game_name`;
`current_game` is what `fetch_channel_info().game_name` would answer;
`fetch_games` is `next(iter(await self.bot.fetch_games(names=[...])), None)`;
`modify_ok` tells whether the provider's `modify_channel` call succeeds
(`false` = it raises, so nothing after it runs, but prior state mutations
stand). -/
def game (s : TrackedState) (now : Int) (is_mod : Bool) (game_name : Option String)
    (current_game : String) (fetch_games : String → Option Game) (modify_ok : Bool) :
    TrackedState × List Act :=
  match game_name with
  | none =>
    (s, [.fetchChannelInfo,
         .send ((if current_game = "" then "No game category" else current_game)
                ++ " " ++ STV.DankDolmes)])
  | some gn =>
    if gn = "" then
      (s, [.fetchChannelInfo,
           .send ((if current_game = "" then "No game category" else current_game)
                  ++ " " ++ STV.DankDolmes)])
    else if ¬ is_mod then
      (s, [.send ("Only moderators are allowed to change game name " ++ FFZ.peepoPolice)])
    else if str_lower gn = "clear" then
      let s' := { s with game_updated_dt := now }
      if modify_ok then
        (s', [.stampGame now, .modifyChannel (some "0") none,
              .send ("Set game to \"No game category\" " ++ STV.uuh)])
      else
        (s', [.stampGame now, .modifyChannel (some "0") none])
    else
      let gn' := game_keywords gn
      match fetch_games gn' with
      | none =>
        (s, [.fetchGames gn',
             .send ("Couldn\x27t find any games with such a name " ++ STV.How2Read)])
      | some g =>
        let s' := { s with game_updated_dt := now }
        if modify_ok then
          (s', [.fetchGames gn', .stampGame now, .modifyChannel (some g.id) none,
                .send ("Changed game to \"" ++ g.name ++ "\" " ++ STV.DankMods)])
        else
          (s', [.fetchGames gn', .stampGame now, .modifyChannel (some g.id) none])

/-- The shared title-update helper (`ChannelManagement.update_title`):
stamp `title_updated_dt = now`, then call `modify_channel(title=...)`.
The returned `Bool` is whether the provider call succeeded (on failure the
caller's remaining steps do not run, but the stamp stands). -/
def update_title (s : TrackedState) (now : Int) (title : String) (modify_ok : Bool) :
    TrackedState × List Act × Bool :=
  ({ s with title_updated_dt := now },
   [.stampTitle now, .modifyChannel none (some title)],
   modify_ok)

/-- The `!title` group callback (`ChannelManagement.title_group`): empty
argument shows the current title; a non-moderator with an argument is
rejected; a moderator's argument goes through `update_title`. -/
def title_group (s : TrackedState) (now : Int) (is_mod : Bool) (title : String)
    (current_title : String) (modify_ok : Bool) : TrackedState × List Act :=
  if title = "" then
    (s, [.fetchChannelInfo, .send current_title])
  else if ¬ is_mod then
    (s, [.send ("Only moderators are allowed to change title " ++ FFZ.peepoPolice)])
  else
    let r := update_title s now title modify_ok
    if r.2.2 then
      (r.1, r.2.1 ++ [.send (STV.donkHappy ++ " Changed title to \"" ++ title ++ "\"")])
    else
      (r.1, r.2.1)

/-- Modelled from the spec: `utils.formats.ordinal` is not under src/; the
spec only says the restore reply reports "which ordinal was restored", so
the standard English ordinal suffix is used. -/
def ordinal (n : Nat) : String :=
  let m := n % 100
  let suffix :=
    if m = 11 ∨ m = 12 ∨ m = 13 then "th"
    else if n % 10 = 1 then "st"
    else if n % 10 = 2 then "nd"
    else if n % 10 = 3 then "rd"
    else "th"
  toString n ++ suffix

/-- Insert a row into a list sorted by `edit_time` descending (stable). -/
def insertDesc (r : String × Int) : Db → Db
  | [] => [r]
  | x :: xs => if x.2 < r.2 then r :: x :: xs else x :: insertDesc r xs

/-- `ORDER BY edit_time DESC` over the history table. -/
def sortDesc : Db → Db
  | [] => []
  | x :: xs => insertDesc x (sortDesc xs)

/-- The `!title restore` subcommand (`ChannelManagement.title_restore`):
`SELECT title FROM ttv_stream_titles ORDER BY edit_time DESC LIMIT 1
OFFSET $1` — i.e. the row at index `offset` of the descending-sorted
table; on a hit the shared `update_title` helper applies it and the
ordinal is reported, on a miss nothing changes. -/
def title_restore (s : TrackedState) (db : Db) (now : Int) (offset : Nat)
    (modify_ok : Bool) : TrackedState × List Act :=
  match ((sortDesc db).drop offset).head? with
  | none =>
    (s, [.send "No change: the database doesn\x27t keep such title."])
  | some row =>
    let r := update_title s now row.1 modify_ok
    if r.2.2 then
      (r.1, r.2.1 ++ [.send ("Set the title to " ++ ordinal offset
                             ++ " in history: " ++ row.1)])
    else
      (r.1, r.2.1)

/-- `INSERT INTO ttv_stream_titles (title, edit_time) VALUES ($1, $2)
ON CONFLICT (title) DO UPDATE SET edit_time = $2`: if the unique key
`title` is present, overwrite that row's `edit_time`; otherwise append. -/
def upsert (db : Db) (title : String) (t : Int) : Db :=
  if db.any (fun r => r.1 = title) then
    db.map (fun r => if r.1 = title then (title, t) else r)
  else
    db ++ [(title, t)]

/-- The rows of the table holding a given title. -/
def rowsFor (db : Db) (title : String) : Db :=
  db.filter (fun r => r.1 = title)

/-- The table's key constraint: titles are pairwise distinct. -/
def keysNodup (db : Db) : Prop :=
  (db.map (fun r => r.1)).Nodup

/-- The `channel_update` listener (`ChannelManagement.channel_update`):
announce a game change when the notified game differs and
`(now - game_updated_dt).seconds > 15`; independently the same for the
title; upsert the title history whenever the title differs (no time
check); unconditionally overwrite the tracked values. -/
def channel_update (s : TrackedState) (db : Db) (now : Int) (u : ChannelUpdate) :
    TrackedState × Db × List Act :=
  let gameMsgs : List Act :=
    if s.game_tracked ≠ u.category_name ∧ 15 < tdSeconds (now - s.game_updated_dt) then
      [.sendMessage (STV.donkDetective ++ " Game was changed to \""
                     ++ u.category_name ++ "\"")]
    else []
  let titleMsgs : List Act :=
    if s.title_tracked ≠ u.title ∧ 15 < tdSeconds (now - s.title_updated_dt) then
      [.sendMessage (STV.DankThink ++ " Title was changed to \"" ++ u.title ++ "\"")]
    else []
  let db' := if s.title_tracked ≠ u.title then upsert db u.title now else db
  ({ s with game_tracked := u.category_name, title_tracked := u.title },
   db', gameMsgs ++ titleMsgs)

/-- The `stream_offline` listener (`ChannelManagement.clear_the_database`):
`DELETE FROM ttv_stream_titles WHERE edit_time < $1` with
`$1 = now - 30 days` (30 days = 2592000000000 microseconds). -/
def clear_the_database (db : Db) (now : Int) : Db :=
  db.filter (fun r => ¬ (r.2 < now - 2592000000000))

/-- C3: after handling any channel-update event, the tracker's in-memory
game name and title equal the values carried by that event,
unconditionally — for every event, including events that produced no
announcement and no history write. -/
theorem channel_update_overwrites_tracked_state (s : TrackedState) (db : Db)
    (now : Int) (u : ChannelUpdate) :
    (channel_update s db now u).1.game_tracked = u.category_name ∧
    (channel_update s db now u).1.title_tracked = u.title :=
  ⟨rfl, rfl⟩

/-- C1 (divergence): with tracked game "Dota 2" and a channel-update event
reporting "Elden Ring" (title unchanged) arriving 1 day and 5 seconds —
real elapsed time 86405 s, far more than 15 s — after the last
bot-initiated change, the listener posts NO announcement: the code tests
`(now - game_updated_dt).seconds > 15`, and `timedelta.seconds` is the
sub-day component (here 5), not the total elapsed seconds. -/
theorem channel_update_wraparound_suppresses_announcement :
    15 * 1000000 < (86405000000 : Int) - 0 ∧
    tdSeconds (86405000000 - 0) = 5 ∧
    (channel_update ⟨"Dota 2", "Title", 0, 0⟩ [] 86405000000
        ⟨"Elden Ring", "Title"⟩).2.2 = [] := by
  refine ⟨by decide, by decide, ?_⟩
  simp [channel_update, tdSeconds]

/-- C2: an update event reporting game `b` while the tracker records game
`a ≠ b`, arriving within 15 seconds of the bot-initiated change (and
carrying the unchanged title), produces no chat message and no history
write, but still sets the tracked game name to `b`. -/
theorem channel_update_echo_suppressed (a b ttl : String) (gdt tdt : Int)
    (db : Db) (now : Int) (hab : a ≠ b) (h0 : 0 ≤ now - gdt)
    (h15 : now - gdt ≤ 15 * 1000000) :
    channel_update ⟨a, ttl, gdt, tdt⟩ db now ⟨b, ttl⟩ =
      (⟨b, ttl, gdt, tdt⟩, db, []) := by
  have hg : ¬ (15 < tdSeconds (now - gdt)) := by
    unfold tdSeconds
    omega
  simp [channel_update, hg]

/-- C2 witness: a concrete run, 10 seconds after the bot set "Elden Ring". -/
theorem channel_update_echo_suppressed_witness :
    channel_update ⟨"Dota 2", "T", 0, 0⟩ [] 10000000 ⟨"Elden Ring", "T"⟩ =
      (⟨"Elden Ring", "T", 0, 0⟩, [], []) :=
  channel_update_echo_suppressed "Dota 2" "Elden Ring" "T" 0 0 [] 10000000
    (by decide) (by decide) (by decide)

/-- C6: in every bot-initiated game or title change the changed-at stamp is
assigned strictly before the provider's `modify_channel` call (it precedes
it in the trace), so when the modify call fails — nothing after it runs —
the stamp is already in place and is not rolled back. -/
theorem stamp_precedes_modify (s : TrackedState) (now : Int) :
    (∀ ttl, update_title s now ttl false =
      ({ s with title_updated_dt := now },
       [.stampTitle now, .modifyChannel none (some ttl)], false)) ∧
    (∀ (g cg : String) (fg : String → Option Game), str_lower g = "clear" →
      game s now true (some g) cg fg false =
        ({ s with game_updated_dt := now },
         [.stampGame now, .modifyChannel (some "0") none])) ∧
    (∀ (g cg : String) (fg : String → Option Game) (gm : Game),
      g ≠ "" → str_lower g ≠ "clear" → fg (game_keywords g) = some gm →
      game s now true (some g) cg fg false =
        ({ s with game_updated_dt := now },
         [.fetchGames (game_keywords g), .stampGame now,
          .modifyChannel (some gm.id) none])) := by
  refine ⟨fun ttl => rfl, fun g cg fg hclear => ?_, fun g cg fg gm hne hnc hfg => ?_⟩
  · have hne : ¬ (g = "") := by
      intro h
      rw [h] at hclear
      exact absurd hclear (by decide)
    simp [game, hne, hclear]
  · simp [game, hne, hnc, hfg]

/-- C6 witness: failing modify calls after `!title x` and `!game clear` and
`!game dota` leave the stamps at `now` with the stamp preceding the modify
attempt in each trace. -/
theorem stamp_precedes_modify_witness :
    (update_title ⟨"g", "t", 0, 0⟩ 7 "x" false =
      (⟨"g", "t", 0, 7⟩, [.stampTitle 7, .modifyChannel none (some "x")], false)) ∧
    (game ⟨"g", "t", 0, 0⟩ 7 true (some "clear") "" (fun _ => none) false =
      (⟨"g", "t", 7, 0⟩, [.stampGame 7, .modifyChannel (some "0") none])) ∧
    (game ⟨"g", "t", 0, 0⟩ 7 true (some "dota") "" (fun _ => some ⟨"29595", "Dota 2"⟩) false =
      (⟨"g", "t", 7, 0⟩, [.fetchGames "Dota 2", .stampGame 7,
                          .modifyChannel (some "29595") none])) := by
  obtain ⟨h1, h2, h3⟩ := stamp_precedes_modify ⟨"g", "t", 0, 0⟩ 7
  exact ⟨h1 "x",
         h2 "clear" "" (fun _ => none) (by decide),
         h3 "dota" "" (fun _ => some ⟨"29595", "Dota 2"⟩) ⟨"29595", "Dota 2"⟩
           (by decide) (by decide) rfl⟩

/-- C7: a moderator's `!game clear` (any casing) succeeds for every
game-search function — the search capability is never called (no
`fetchGames` action occurs) — stamps `game_updated_dt = now`, and modifies
the channel with the sentinel category id "0". -/
theorem game_clear_no_lookup (s : TrackedState) (now : Int) (g cg : String)
    (fg : String → Option Game) (hclear : str_lower g = "clear") :
    game s now true (some g) cg fg true =
      ({ s with game_updated_dt := now },
       [.stampGame now, .modifyChannel (some "0") none,
        .send ("Set game to \"No game category\" " ++ STV.uuh)]) ∧
    (∀ n, Act.fetchGames n ∉ (game s now true (some g) cg fg true).2) := by
  have hne : ¬ (g = "") := by
    intro h
    rw [h] at hclear
    exact absurd hclear (by decide)
  constructor
  · simp [game, hne, hclear]
  · intro n
    simp [game, hne, hclear]

/-- C7 witness: `!game CLEAR` with a search provider that finds nothing. -/
theorem game_clear_no_lookup_witness :
    game ⟨"g", "t", 0, 0⟩ 7 true (some "CLEAR") "" (fun _ => none) true =
      (⟨"g", "t", 7, 0⟩,
       [.stampGame 7, .modifyChannel (some "0") none,
        .send ("Set game to \"No game category\" " ++ STV.uuh)]) ∧
    (∀ n, Act.fetchGames n ∉
      (game ⟨"g", "t", 0, 0⟩ 7 true (some "CLEAR") "" (fun _ => none) true).2) :=
  game_clear_no_lookup ⟨"g", "t", 0, 0⟩ 7 "CLEAR" "" (fun _ => none) (by decide)

/-- C9: a non-moderator invoking `!game <name>` or `!title <text>` gets
exactly one rejection message and nothing else: the tracker state is
returned unchanged and the trace holds no stamp, no channel modification
and no history operation. -/
theorem non_moderator_rejected (s : TrackedState) (now : Int) (g ttl cg : String)
    (fg : String → Option Game) (ok : Bool) (hg : g ≠ "") (ht : ttl ≠ "") :
    game s now false (some g) cg fg ok =
      (s, [.send ("Only moderators are allowed to change game name "
                  ++ FFZ.peepoPolice)]) ∧
    title_group s now false ttl cg ok =
      (s, [.send ("Only moderators are allowed to change title "
                  ++ FFZ.peepoPolice)]) := by
  constructor
  · simp [game, hg]
  · simp [title_group, ht]

/-- C9 witness: a concrete non-moderator `!game Dota 2` and `!title hi`. -/
theorem non_moderator_rejected_witness :
    game ⟨"g", "t", 0, 0⟩ 7 false (some "Dota 2") "" (fun _ => none) true =
      (⟨"g", "t", 0, 0⟩,
       [.send ("Only moderators are allowed to change game name "
               ++ FFZ.peepoPolice)]) ∧
    title_group ⟨"g", "t", 0, 0⟩ 7 false "hi" "" true =
      (⟨"g", "t", 0, 0⟩,
       [.send ("Only moderators are allowed to change title "
               ++ FFZ.peepoPolice)]) :=
  non_moderator_rejected ⟨"g", "t", 0, 0⟩ 7 "Dota 2" "hi" "" (fun _ => none) true
    (by decide) (by decide)

/-- C10: the "clear" keyword is matched case-insensitively (any casing
whose lowercase form is "clear" clears the category), while the synonym
table is exact and case-sensitive: "dota" and "er" are mapped to "Dota 2"
and "Elden Ring" before the search, whereas "Dota" and "ER" are passed to
the search verbatim. -/
theorem game_clear_casefold_keywords_exact (s : TrackedState) (now : Int)
    (cg : String) (fg : String → Option Game) (ok : Bool) :
    (∀ g, str_lower g = "clear" →
      Act.modifyChannel (some "0") none ∈ (game s now true (some g) cg fg true).2) ∧
    (game s now true (some "CLEAR") cg fg true).2 =
      [.stampGame now, .modifyChannel (some "0") none,
       .send ("Set game to \"No game category\" " ++ STV.uuh)] ∧
    (game s now true (some "Clear") cg fg true).2 =
      [.stampGame now, .modifyChannel (some "0") none,
       .send ("Set game to \"No game category\" " ++ STV.uuh)] ∧
    (game s now true (some "dota") cg fg ok).2.head? = some (.fetchGames "Dota 2") ∧
    (game s now true (some "er") cg fg ok).2.head? = some (.fetchGames "Elden Ring") ∧
    (game s now true (some "Dota") cg fg ok).2.head? = some (.fetchGames "Dota") ∧
    (game s now true (some "ER") cg fg ok).2.head? = some (.fetchGames "ER") := by
  refine ⟨fun g hclear => ?_, ?_, ?_, ?_, ?_, ?_, ?_⟩
  · have hne : ¬ (g = "") := by
      intro h
      rw [h] at hclear
      exact absurd hclear (by decide)
    simp [game, hne, hclear]
  · simp [game, show str_lower "CLEAR" = "clear" by decide]
  · simp [game, show str_lower "Clear" = "clear" by decide]
  · cases hfg : fg "Dota 2" <;>
      simp [game, show ¬ str_lower "dota" = "clear" by decide, game_keywords, hfg] <;>
      cases ok <;> simp
  · cases hfg : fg "Elden Ring" <;>
      simp [game, show ¬ str_lower "er" = "clear" by decide, game_keywords, hfg] <;>
      cases ok <;> simp
  · cases hfg : fg "Dota" <;>
      simp [game, show ¬ str_lower "Dota" = "clear" by decide, game_keywords, hfg] <;>
      cases ok <;> simp
  · cases hfg : fg "ER" <;>
      simp [game, show ¬ str_lower "ER" = "clear" by decide, game_keywords, hfg] <;>
      cases ok <;> simp

/-- C10 witness: the universally quantified clear-casing part at "cLeAr". -/
theorem game_clear_casefold_keywords_exact_witness :
    Act.modifyChannel (some "0") none ∈
      (game ⟨"g", "t", 0, 0⟩ 7 true (some "cLeAr") "" (fun _ => none) true).2 :=
  (game_clear_casefold_keywords_exact ⟨"g", "t", 0, 0⟩ 7 "" (fun _ => none) true).1
    "cLeAr" (by decide)

/-- C5: `!title restore k` looks up the row at index `k` of the history
sorted by edit time descending (SQL `LIMIT 1 OFFSET k`, so the newest row
at index 0 — the current title — is skipped for `k ≥ 1`); on a hit it goes
through the shared `update_title` helper (stamp then modify) and reports
the ordinal, on a miss it reports the absence and changes neither the
state nor the channel. -/
theorem title_restore_offset (s : TrackedState) (db : Db) (now : Int)
    (k : Nat) (hk : 1 ≤ k) :
    (((sortDesc db).drop k).head? = none →
      ∀ ok, title_restore s db now k ok =
        (s, [.send "No change: the database doesn\x27t keep such title."])) ∧
    (∀ t e, ((sortDesc db).drop k).head? = some (t, e) →
      title_restore s db now k true =
        ({ s with title_updated_dt := now },
         [.stampTitle now, .modifyChannel none (some t),
          .send ("Set the title to " ++ ordinal k ++ " in history: " ++ t)])) := by
  constructor
  · intro h ok
    simp [title_restore, h]
  · intro t e h
    simp [title_restore, h, update_title]

/-- C5 witness: on the history of the worked example, `restore 1` applies
the immediately-previous title "Elden Ring Hype" and `restore 10` changes
nothing. -/
theorem title_restore_offset_witness :
    title_restore ⟨"g", "Current", 0, 0⟩
        [("Dota 2 grind", 1), ("Chatting", 2), ("Elden Ring Hype", 3), ("Current", 4)]
        9 1 true =
      (⟨"g", "Current", 0, 9⟩,
       [.stampTitle 9, .modifyChannel none (some "Elden Ring Hype"),
        .send ("Set the title to " ++ ordinal 1 ++ " in history: Elden Ring Hype")]) ∧
    title_restore ⟨"g", "Current", 0, 0⟩
        [("Dota 2 grind", 1), ("Chatting", 2), ("Elden Ring Hype", 3), ("Current", 4)]
        9 10 true =
      (⟨"g", "Current", 0, 0⟩,
       [.send "No change: the database doesn\x27t keep such title."]) := by
  constructor
  · have h := (title_restore_offset ⟨"g", "Current", 0, 0⟩
      [("Dota 2 grind", 1), ("Chatting", 2), ("Elden Ring Hype", 3), ("Current", 4)]
      9 1 (by decide)).2 "Elden Ring Hype" 3 (by decide)
    simpa using h
  · exact (title_restore_offset ⟨"g", "Current", 0, 0⟩
      [("Dota 2 grind", 1), ("Chatting", 2), ("Elden Ring Hype", 3), ("Current", 4)]
      9 10 (by decide)).1 (by decide) true

/-- C8: the stream-offline pruning deletes exactly the rows whose
`edit_time` is strictly older than `now - 30 days`: a row exactly at the
cutoff is kept, newer rows are kept, and the operation is idempotent. -/
theorem clear_the_database_cutoff (db : Db) (now : Int) :
    (∀ r ∈ db, r.2 < now - 2592000000000 → r ∉ clear_the_database db now) ∧
    (∀ r ∈ db, now - 2592000000000 ≤ r.2 → r ∈ clear_the_database db now) ∧
    clear_the_database (clear_the_database db now) now =
      clear_the_database db now := by
  refine ⟨?_, ?_, ?_⟩
  · intro r hr hold hmem
    rw [clear_the_database, List.mem_filter] at hmem
    simp only [decide_eq_true_eq] at hmem
    exact hmem.2 hold
  · intro r hr hnew
    rw [clear_the_database, List.mem_filter]
    simp only [decide_eq_true_eq]
    exact ⟨hr, by omega⟩
  · rw [clear_the_database, clear_the_database, List.filter_filter]
    congr 1
    funext r
    cases h : decide (¬ r.2 < now - 2592000000000) <;> simp [h]

/-- C8 witness: at `now = 2592000000010`, the cutoff is 10; a row at
edit time 9 is deleted, rows at 10 (boundary) and 11 are kept, and
re-running deletes nothing further. -/
theorem clear_the_database_cutoff_witness :
    ("old", 9) ∉ clear_the_database [("old", 9), ("edge", 10), ("new", 11)]
      2592000000010 ∧
    ("edge", 10) ∈ clear_the_database [("old", 9), ("edge", 10), ("new", 11)]
      2592000000010 ∧
    clear_the_database
        (clear_the_database [("old", 9), ("edge", 10), ("new", 11)] 2592000000010)
        2592000000010 =
      clear_the_database [("old", 9), ("edge", 10), ("new", 11)] 2592000000010 := by
  obtain ⟨h1, h2, h3⟩ :=
    clear_the_database_cutoff [("old", 9), ("edge", 10), ("new", 11)] 2592000000010
  exact ⟨h1 ("old", 9) (by decide) (by decide),
         h2 ("edge", 10) (by decide) (by decide), h3⟩

theorem rowsFor_eq_nil (db : Db) (T : String)
    (h : db.any (fun r => r.1 = T) = false) : rowsFor db T = [] := by
  rw [rowsFor, List.filter_eq_nil]
  intro r hr
  simp only [List.any_eq_false] at h
  simpa using h r hr

theorem rowsFor_map_overwrite (db : Db) (T : String) (t : Int)
    (h : keysNodup db) (hT : ∃ r ∈ db, r.1 = T) :
    rowsFor (db.map (fun r => if r.1 = T then (T, t) else r)) T = [(T, t)] := by
  induction db with
  | nil => simp at hT
  | cons x xs ih =>
    rw [keysNodup, List.map_cons, List.nodup_cons] at h
    by_cases hx : x.1 = T
    · have hxs : ∀ r ∈ xs, ¬ r.1 = T := by
        intro r hr he
        exact h.1 (by rw [hx, ← he]; exact List.mem_map_of_mem Prod.fst hr)
      have h1 : ∀ r ∈ xs, (if r.1 = T then (T, t) else r) = id r := by
        intro r hr
        rw [if_neg (hxs r hr)]
        rfl
      rw [List.map_cons, if_pos hx, List.map_congr_left h1, List.map_id, rowsFor,
          List.filter_cons_of_pos (by simp), ← rowsFor,
          rowsFor_eq_nil xs T (by simpa using hxs)]
    · obtain ⟨r, hr, hrT⟩ := hT
      rcases List.mem_cons.mp hr with rfl | hr'
      · exact absurd hrT hx
      · rw [List.map_cons, if_neg hx, rowsFor,
            List.filter_cons_of_neg (by simpa using hx), ← rowsFor]
        exact ih h.2 ⟨r, hr', hrT⟩

theorem rowsFor_upsert (db : Db) (T : String) (t : Int) (h : keysNodup db) :
    rowsFor (upsert db T t) T = [(T, t)] := by
  rw [upsert]
  cases hany : db.any (fun r => r.1 = T) with
  | false =>
    rw [if_neg Bool.false_ne_true, rowsFor, List.filter_append,
        ← rowsFor, ← rowsFor, rowsFor_eq_nil db T hany]
    simp [rowsFor]
  | true =>
    rw [if_pos rfl]
    refine rowsFor_map_overwrite db T t h ?_
    simpa using List.any_eq_true.mp hany

theorem keysNodup_upsert (db : Db) (T : String) (t : Int) (h : keysNodup db) :
    keysNodup (upsert db T t) := by
  rw [upsert]
  cases hany : db.any (fun r => r.1 = T) with
  | false =>
    rw [if_neg Bool.false_ne_true, keysNodup, List.map_append]
    simp only [List.any_eq_false] at hany
    rw [List.nodup_append]
    refine ⟨h, List.nodup_singleton T, ?_⟩
    intro a ha hb
    simp only [List.map_cons, List.map_nil, List.mem_singleton] at hb
    obtain ⟨r, hr, rfl⟩ := List.mem_map.mp ha
    exact (by simpa using hany r hr : ¬ r.1 = T) hb
  | true =>
    rw [if_pos rfl, keysNodup, List.map_map]
    have hcomp : (Prod.fst ∘ fun r : String × Int => if r.1 = T then (T, t) else r) =
        Prod.fst := by
      funext r
      by_cases hr : r.1 = T
      · simp [hr]
      · simp [hr]
    rw [hcomp]
    exact h

/-- C4: whenever a channel-update event carries a title different from the
tracked one — with no 15-second condition — the handler upserts a history
record for the new title at `edit_time = now`; and the upsert is
idempotent on the `title` key: upserting the same title twice (at times
`t1`, then `t2`) leaves exactly one row for that title, carrying the
later write's time `t2`. -/
theorem channel_update_history_upsert :
    (∀ (s : TrackedState) (db : Db) (now : Int) (u : ChannelUpdate),
      s.title_tracked ≠ u.title →
      (channel_update s db now u).2.1 = upsert db u.title now) ∧
    (∀ (db : Db) (T : String) (t1 t2 : Int), keysNodup db →
      rowsFor (upsert db T t1) T = [(T, t1)] ∧
      rowsFor (upsert (upsert db T t1) T t2) T = [(T, t2)]) := by
  constructor
  · intro s db now u h
    simp [channel_update, h]
  · intro db T t1 t2 h
    exact ⟨rowsFor_upsert db T t1 h,
           rowsFor_upsert (upsert db T t1) T t2 (keysNodup_upsert db T t1 h)⟩

/-- C4 witness: a concrete event write, and the double upsert of "T" at
times 5 then 8 over a two-row table. -/
theorem channel_update_history_upsert_witness :
    (channel_update ⟨"g", "old", 0, 0⟩ [("x", 1)] 5 ⟨"g", "T"⟩).2.1 =
      upsert [("x", 1)] "T" 5 ∧
    (rowsFor (upsert [("x", 1), ("T", 2)] "T" 5) "T" = [("T", 5)] ∧
     rowsFor (upsert (upsert [("x", 1), ("T", 2)] "T" 5) "T" 8) "T" = [("T", 8)]) :=
  ⟨channel_update_history_upsert.1 ⟨"g", "old", 0, 0⟩ [("x", 1)] 5 ⟨"g", "T"⟩
     (by decide),
   channel_update_history_upsert.2 [("x", 1), ("T", 2)] "T" 5 8
     (by unfold keysNodup; decide)⟩
